import Mathlib

/-!
Verification of the Ember data store and its business-rule layer.

The definitions below are a shallow embedding of `src/main/dataStore.ts` and
`src/main/services/reportScheduler.ts`:

* ISO-8601 timestamp strings are modelled as `Int` values (milliseconds since
  the epoch); `new Date(x).getTime() < Date.now()` becomes `x < now`, and the
  dayjs `isAfter` / `isBefore` comparisons become strict `<` on `Int`.
* `nowIso()` / `Date.now()` calls are passed in as explicit parameters, one
  per call site where the code takes a fresh reading.
* `randomUUID()` results are passed in as explicit `String` parameters.
* JavaScript in-place mutation of the array element found by `find` becomes
  `updateFirst`, which rewrites the first list element matching a predicate
  (mirroring that `find` returns the first match and the mutation aliases it).
* Fallible operations (`throw new Error(...)`) return `Except String`.
-/

namespace Ember

inductive TaskStatus where
  | pending
  | inProgress
  | completed
  | pastDue
  | rescheduled
deriving DecidableEq, Repr

def TaskStatus.toName : TaskStatus → String
  | .pending => "pending"
  | .inProgress => "in-progress"
  | .completed => "completed"
  | .pastDue => "past-due"
  | .rescheduled => "rescheduled"

inductive ContactTemperature where
  | new
  | cool
  | warm
  | hot
  | convert
deriving DecidableEq, Repr

def ContactTemperature.toName : ContactTemperature → String
  | .new => "new"
  | .cool => "cool"
  | .warm => "warm"
  | .hot => "hot"
  | .convert => "convert"

inductive ActivityType where
  | note
  | call
  | visit
  | task
  | assignmentResult
deriving DecidableEq, Repr

inductive UserRole where
  | director
  | administrator
  | connector
  | teacher
  | member
deriving DecidableEq, Repr

structure DigestPreference where
  dayOfWeek : Nat
  time : String
deriving DecidableEq, Repr

structure Campus where
  id : String
  churchId : String
  name : String
  address : Option String
  timezone : String
  primary : Option Bool
deriving DecidableEq, Repr

structure SmtpSettings where
  host : String
  port : Int
  secure : Bool
  user : Option String
  password : Option String
  fromName : String
  fromEmail : String
deriving DecidableEq, Repr

structure Church where
  id : String
  name : String
  brandTagline : Option String
  planId : String
  digestPreference : DigestPreference
  emailAlerts : Bool
  audibleAlerts : Bool
  campuses : List Campus
  primaryCampusId : Option String
  smtp : Option SmtpSettings
deriving DecidableEq, Repr

structure UserAccount where
  id : String
  churchId : String
  name : String
  email : String
  phone : Option String
  role : UserRole
  avatarColor : String
  active : Bool
deriving DecidableEq, Repr

structure UserCredential where
  userId : String
  passwordHash : String
deriving DecidableEq, Repr

structure Contact where
  id : String
  churchId : String
  campusId : String
  displayName : String
  temperature : ContactTemperature
  email : Option String
  phone : Option String
  tags : List String
  preferredContactMethod : String
  ownerId : Option String
  backgroundNotes : Option String
  photoPath : Option String
  createdAt : Int
  updatedAt : Int
  lastActivityAt : Option Int
deriving DecidableEq, Repr

structure FollowUpTask where
  id : String
  churchId : String
  contactId : String
  assigneeId : String
  category : String
  status : TaskStatus
  dueDate : Int
  windowStart : Option Int
  windowEnd : Option Int
  notes : Option String
  recurrence : String
  templateId : Option String
  createdAt : Int
  updatedAt : Int
  completedAt : Option Int
  rescheduledFor : Option Int
  outcomeNote : Option String
deriving DecidableEq, Repr

structure ActivityLog where
  id : String
  churchId : String
  contactId : String
  userId : String
  type : ActivityType
  note : String
  taskId : Option String
  createdAt : Int
deriving DecidableEq, Repr

structure AssignmentTemplate where
  id : String
  churchId : String
  label : String
  description : Option String
  category : String
  defaultRecurrence : String
deriving DecidableEq, Repr

structure SubscriptionPlan where
  id : String
  name : String
  pricePerMonth : Int
  maxUsers : Int
  maxContacts : Int
  features : List String
deriving DecidableEq, Repr

structure AppDatabase where
  version : Int
  lastUpdated : Int
  churches : List Church
  campuses : List Campus
  users : List UserAccount
  credentials : List UserCredential
  contacts : List Contact
  tasks : List FollowUpTask
  activities : List ActivityLog
  plans : List SubscriptionPlan
  templates : List AssignmentTemplate
deriving DecidableEq, Repr

/-- `AppSnapshot = Omit<AppDatabase, 'credentials'>`. -/
structure AppSnapshot where
  version : Int
  lastUpdated : Int
  churches : List Church
  campuses : List Campus
  users : List UserAccount
  contacts : List Contact
  tasks : List FollowUpTask
  activities : List ActivityLog
  plans : List SubscriptionPlan
  templates : List AssignmentTemplate
deriving DecidableEq, Repr

/-- `DataStore.getSnapshot`: drops the `credentials` collection and expands
each church's `campuses` from the campus table. -/
def getSnapshot (db : AppDatabase) : AppSnapshot :=
  { version := db.version
    lastUpdated := db.lastUpdated
    churches := db.churches.map (fun church =>
      { church with campuses := db.campuses.filter (fun campus => campus.churchId == church.id) })
    campuses := db.campuses
    users := db.users
    contacts := db.contacts
    tasks := db.tasks
    activities := db.activities
    plans := db.plans
    templates := db.templates }

/-- Rewrites the first element of the list matching `p` (JavaScript `find`
followed by in-place mutation of the found element). -/
def updateFirst {α : Type} (p : α → Bool) (f : α → α) : List α → List α
  | [] => []
  | x :: xs => if p x then f x :: xs else x :: updateFirst p f xs

/-- `DataStore.persist`: flushes to disk and stamps `lastUpdated`. -/
def persist (db : AppDatabase) (now : Int) : AppDatabase :=
  { db with lastUpdated := now }

/-- `DataStore.findContact`. -/
def findContact (db : AppDatabase) (contactId churchId : String) : Option Contact :=
  db.contacts.find? (fun target => target.id == contactId && target.churchId == churchId)

/-- `DataStore.getPrimaryCampusId`: `church?.primaryCampusId`. -/
def getPrimaryCampusId (db : AppDatabase) (churchId : String) : Option String :=
  match db.churches.find? (fun c => c.id == churchId) with
  | some church => church.primaryCampusId
  | none => none

/-- `DataStore.getDefaultUserId`. -/
def getDefaultUserId (db : AppDatabase) (churchId : String) : String :=
  match db.users.find? (fun user => user.churchId == churchId) with
  | some user => user.id
  | none => "system"

/-- `DataStore.getUserName`. -/
def getUserName (db : AppDatabase) (userId : String) : String :=
  match db.users.find? (fun user => user.id == userId) with
  | some user => user.name
  | none => "Unassigned"

structure ActivityInput where
  churchId : String
  contactId : String
  userId : String
  type : ActivityType
  note : String
  taskId : Option String
deriving DecidableEq, Repr

/-- `DataStore.recordActivity`: builds the log entry, stamps
`lastActivityAt` / `updatedAt` on the touched contact (the first contact
matching `contactId` and `churchId`, as `findContact` does), prepends the
entry to `activities` (`unshift`) and stamps `lastUpdated`.
Returns the new log entry together with the updated database. -/
def recordActivity (db : AppDatabase) (a : ActivityInput) (newId : String) (now : Int) :
    ActivityLog × AppDatabase :=
  let logEntry : ActivityLog :=
    { id := newId, churchId := a.churchId, contactId := a.contactId, userId := a.userId
      type := a.type, note := a.note, taskId := a.taskId, createdAt := now }
  (logEntry,
   { db with
       contacts := updateFirst
         (fun target => target.id == a.contactId && target.churchId == a.churchId)
         (fun c => { c with lastActivityAt := some logEntry.createdAt, updatedAt := logEntry.createdAt })
         db.contacts
       activities := logEntry :: db.activities
       lastUpdated := logEntry.createdAt })

structure ContactInput where
  churchId : String
  campusId : Option String
  displayName : String
  temperature : Option ContactTemperature
  email : Option String
  phone : Option String
  ownerId : Option String
  preferredContactMethod : Option String
  backgroundNotes : Option String
  tags : Option (List String)
deriving DecidableEq, Repr

/-- `DataStore.createContact`. The campus falls back to the church's primary
campus (`payload.campusId ?? this.getPrimaryCampusId(...)`); the JavaScript
`!campusId` guard also rejects an empty-string campus id. The returned contact
is the pushed object, which `recordActivity` mutates exactly when it is the
first contact matching `(id, churchId)` — i.e. when no earlier contact in the
array carries the same id for the same church.
`newId`: the `randomUUID()` for the contact; `now`: `nowIso()` at creation;
`actId` / `actNow`: id and timestamp of the activity entry; `persistNow`: the
`nowIso()` taken inside `persist`. -/
def createContact (db : AppDatabase) (p : ContactInput) (newId : String) (now : Int)
    (actId : String) (actNow : Int) (persistNow : Int) : Except String (Contact × AppDatabase) :=
  let campusId := match p.campusId with
    | some c => some c
    | none => getPrimaryCampusId db p.churchId
  match campusId with
  | none => Except.error "No campus configured for this church."
  | some cid =>
    if cid = "" then Except.error "No campus configured for this church."
    else
      let contact : Contact :=
        { id := newId, churchId := p.churchId, campusId := cid
          displayName := p.displayName.trim
          temperature := p.temperature.getD ContactTemperature.new
          email := p.email.map String.trim, phone := p.phone.map String.trim
          tags := p.tags.getD [], preferredContactMethod := p.preferredContactMethod.getD "phone"
          ownerId := p.ownerId, backgroundNotes := p.backgroundNotes, photoPath := none
          createdAt := now, updatedAt := now, lastActivityAt := some now }
      let db1 := { db with contacts := db.contacts ++ [contact] }
      let r := recordActivity db1
        { type := ActivityType.note
          note := "Contact created: " ++ contact.displayName
          churchId := contact.churchId
          contactId := contact.id
          userId := p.ownerId.getD (getDefaultUserId db contact.churchId)
          taskId := none } actId actNow
      let returned :=
        if db.contacts.any (fun c => c.id == newId && c.churchId == p.churchId) then contact
        else { contact with lastActivityAt := some actNow, updatedAt := actNow }
      Except.ok (returned, persist r.2 persistNow)

structure ContactStatusUpdate where
  contactId : String
  churchId : String
  temperature : ContactTemperature
  ownerId : Option String
  note : Option String
  userId : String
deriving DecidableEq, Repr

/-- `DataStore.updateContactStatus`. The returned contact is the object found
by `findContact`, whose final field values are those of the first match after
`recordActivity` has run. -/
def updateContactStatus (db : AppDatabase) (u : ContactStatusUpdate) (now : Int)
    (actId : String) (actNow : Int) (persistNow : Int) : Option Contact × AppDatabase :=
  match findContact db u.contactId u.churchId with
  | none => (none, db)
  | some c =>
    let c1 := { c with
        temperature := u.temperature
        ownerId := match u.ownerId with | some o => some o | none => c.ownerId
        updatedAt := now
        lastActivityAt := some now }
    let db1 := { db with
        contacts := updateFirst
          (fun target => target.id == u.contactId && target.churchId == u.churchId)
          (fun _ => c1) db.contacts }
    let r := recordActivity db1
      { type := ActivityType.note
        note := u.note.getD ("Temperature set to " ++ u.temperature.toName)
        churchId := u.churchId
        contactId := u.contactId
        userId := u.userId
        taskId := none } actId actNow
    (findContact r.2 u.contactId u.churchId, persist r.2 persistNow)

/-- `DataStore.updateContactPhoto`: copies the file into the uploads area,
stores the destination path and stamps `updatedAt`. It records no activity
and does not touch `lastActivityAt`. Returns the found contact unchanged and
skips the flush when `sourcePath` is empty (the `!sourcePath` guard). -/
def updateContactPhoto (db : AppDatabase) (contactId churchId sourcePath uploadsPath : String)
    (now : Int) (persistNow : Int) : Option Contact × AppDatabase :=
  match findContact db contactId churchId with
  | none => (none, db)
  | some c =>
    if sourcePath = "" then (some c, db)
    else
      let extension := (sourcePath.splitOn ".").getLastD ""
      let destination := uploadsPath ++ "/" ++ contactId ++ "." ++ extension
      let db1 := { db with
          contacts := updateFirst
            (fun target => target.id == contactId && target.churchId == churchId)
            (fun x => { x with photoPath := some destination, updatedAt := now }) db.contacts }
      (findContact db1 contactId churchId, persist db1 persistNow)

structure TaskStatusUpdateInput where
  taskId : String
  status : TaskStatus
  userId : String
  note : Option String
  rescheduledFor : Option Int
deriving DecidableEq, Repr

/-- `normalizeTaskStatus`: an explicit update to `pending` with an already
past due date is stored as `past-due`. -/
def normalizeTaskStatus (status : TaskStatus) (dueDate : Int) (now : Int) : TaskStatus :=
  if status = TaskStatus.pending ∧ dueDate < now then TaskStatus.pastDue else status

/-- The field mutations `updateTaskStatus` applies to the found task: the
normalized status and `updatedAt` stamp; a `completed` request also stamps
`completedAt` and the outcome note, a `rescheduled` request stores
`rescheduledFor` and the note. -/
def writtenTask (u : TaskStatusUpdateInput) (task : FollowUpTask) (now : Int) : FollowUpTask :=
  let base := { task with status := normalizeTaskStatus u.status task.dueDate now, updatedAt := now }
  if u.status = TaskStatus.completed then
    { base with completedAt := some now, outcomeNote := u.note }
  else if u.status = TaskStatus.rescheduled then
    { base with rescheduledFor := u.rescheduledFor, outcomeNote := u.note }
  else base

/-- `DataStore.updateTaskStatus`. The task found by id is rewritten with
`writtenTask`. One `assignment-result` activity entry is recorded (its default
note uses the already-normalized status). The returned task is the first match
after the update, which is the rewritten task. -/
def updateTaskStatus (db : AppDatabase) (u : TaskStatusUpdateInput) (now : Int)
    (actId : String) (actNow : Int) (persistNow : Int) : Option FollowUpTask × AppDatabase :=
  match db.tasks.find? (fun t => t.id == u.taskId) with
  | none => (none, db)
  | some task =>
    let task1 := writtenTask u task now
    let db1 := { db with tasks := updateFirst (fun t => t.id == u.taskId) (fun _ => task1) db.tasks }
    let r := recordActivity db1
      { type := ActivityType.assignmentResult
        note := u.note.getD ("Updated task status to " ++ task1.status.toName)
        churchId := task.churchId
        contactId := task.contactId
        userId := u.userId
        taskId := some task.id } actId actNow
    (r.2.tasks.find? (fun t => t.id == u.taskId), persist r.2 persistNow)

/-- One step of the past-due sweep over a single task: completed tasks are
skipped; a task whose `dueDate` has passed and whose status is not already
`past-due` is flipped to `past-due`. -/
def sweepTask (now : Int) (t : FollowUpTask) : FollowUpTask :=
  if t.status = TaskStatus.completed then t
  else if t.dueDate < now ∧ t.status ≠ TaskStatus.pastDue then
    { t with status := TaskStatus.pastDue }
  else t

/-- The `forEach` body of `setPastDueStatuses`: returns the rewritten task
list together with the list of changed tasks (post-change values, in order). -/
def sweepGo (now : Int) : List FollowUpTask → List FollowUpTask × List FollowUpTask
  | [] => ([], [])
  | t :: ts =>
    if t.status = TaskStatus.completed then
      (t :: (sweepGo now ts).1, (sweepGo now ts).2)
    else if t.dueDate < now ∧ t.status ≠ TaskStatus.pastDue then
      ({ t with status := TaskStatus.pastDue } :: (sweepGo now ts).1,
       { t with status := TaskStatus.pastDue } :: (sweepGo now ts).2)
    else
      (t :: (sweepGo now ts).1, (sweepGo now ts).2)

/-- `DataStore.setPastDueStatuses`: sweeps all tasks and persists only when at
least one task changed. Returns the changed set, the resulting database and
whether a persisted write happened. -/
def setPastDueStatuses (db : AppDatabase) (now : Int) :
    List FollowUpTask × AppDatabase × Bool :=
  let swept := sweepGo now db.tasks
  if swept.2.length > 0 then (swept.2, persist { db with tasks := swept.1 } now, true)
  else (swept.2, { db with tasks := swept.1 }, false)

structure ReportDigest where
  periodStart : Int
  periodEnd : Int
  label : String
  totalActivities : Nat
  completedAssignments : Nat
  rescheduledAssignments : Nat
  newContacts : Nat
  converts : Nat
  pastDueTasks : Nat
deriving DecidableEq, Repr

/-- `DataStore.composeDigest`. Window comparisons are dayjs `isAfter` /
`isBefore` against the window bounds, i.e. strict inequalities; `pastDueTasks`
and `converts` are church-wide current counts, not window-scoped. -/
def composeDigest (db : AppDatabase) (churchId : String) (start stop : Int) (label : String) :
    ReportDigest :=
  { periodStart := start
    periodEnd := stop
    label := label
    totalActivities := (db.activities.filter (fun a =>
      a.churchId == churchId && decide (start < a.createdAt) && decide (a.createdAt < stop))).length
    completedAssignments := (db.tasks.filter (fun t =>
      t.churchId == churchId && t.status == TaskStatus.completed &&
        (match t.completedAt with
         | some c => decide (start < c) && decide (c < stop)
         | none => false))).length
    rescheduledAssignments := (db.tasks.filter (fun t =>
      t.churchId == churchId && t.status == TaskStatus.rescheduled &&
        t.rescheduledFor.isSome && decide (start < t.updatedAt) && decide (t.updatedAt < stop))).length
    newContacts := (db.contacts.filter (fun c =>
      c.churchId == churchId && decide (start < c.createdAt) && decide (c.createdAt < stop))).length
    converts := (db.contacts.filter (fun c =>
      c.churchId == churchId && c.temperature == ContactTemperature.convert)).length
    pastDueTasks := (db.tasks.filter (fun t =>
      t.churchId == churchId && t.status == TaskStatus.pastDue)).length }

structure SyncBundle where
  church : Church
  campuses : List Campus
  contacts : List Contact
  tasks : List FollowUpTask
  activities : List ActivityLog
  templates : List AssignmentTemplate
  generatedAt : Int
deriving DecidableEq, Repr

/-- `DataStore.createSyncBundle`. The `church` field is built with a spread of
the stored church record (`{ ...church, campuses }`), so every runtime field of
the church — the optional `smtp` configuration included — is carried into the
bundle, regardless of the `Omit<..., 'smtp'>` static type annotation. -/
def createSyncBundle (db : AppDatabase) (churchId : String) (now : Int) : Option SyncBundle :=
  match db.churches.find? (fun c => c.id == churchId) with
  | none => none
  | some church =>
    let campuses := db.campuses.filter (fun campus => campus.churchId == churchId)
    some
      { church := { church with campuses := campuses }
        campuses := campuses
        contacts := db.contacts.filter (fun contact => contact.churchId == churchId)
        tasks := db.tasks.filter (fun task => task.churchId == churchId)
        activities := db.activities.filter (fun activity => activity.churchId == churchId)
        templates := db.templates.filter (fun template => template.churchId == churchId)
        generatedAt := now }

structure SyncImportResult where
  importedContacts : Nat
  importedTasks : Nat
  path : String
deriving DecidableEq, Repr

/-- The per-kind `forEach` of `importSyncBundle`: appends each source record
whose id is not already present in the destination (which grows as records are
admitted), counting the admissions. -/
def mergeById {α : Type} (getId : α → String) : List α → List α → List α × Nat
  | dest, [] => (dest, 0)
  | dest, x :: xs =>
    if dest.any (fun e => getId e == getId x) then mergeById getId dest xs
    else
      ((mergeById getId (dest ++ [x]) xs).1, (mergeById getId (dest ++ [x]) xs).2 + 1)

/-- `DataStore.importSyncBundle`: requires the destination church to exist,
merges campuses, contacts, tasks and templates id-by-id (existing records
win), counts newly admitted contacts and tasks, and persists. Bundle
activities are not imported. -/
def importSyncBundle (db : AppDatabase) (churchId : String) (bundle : SyncBundle)
    (path : String) (persistNow : Int) : Except String (SyncImportResult × AppDatabase) :=
  match db.churches.find? (fun c => c.id == churchId) with
  | none => Except.error "Church not found."
  | some _ =>
    let campuses := mergeById Campus.id db.campuses bundle.campuses
    let contacts := mergeById Contact.id db.contacts bundle.contacts
    let tasks := mergeById FollowUpTask.id db.tasks bundle.tasks
    let templates := mergeById AssignmentTemplate.id db.templates bundle.templates
    Except.ok
      ({ importedContacts := contacts.2, importedTasks := tasks.2, path := path },
       persist { db with
           campuses := campuses.1, contacts := contacts.1
           tasks := tasks.1, templates := templates.1 } persistNow)

/-- The current instant as the scheduler observes it: local day-of-week,
hour, minute, the `YYYY-MM-DD` date string used for the once-per-day key, and
whether today is the last calendar day of the month. -/
structure TickNow where
  day : Nat
  hour : Nat
  minute : Nat
  dateStr : String
  lastDayOfMonth : Bool
deriving DecidableEq, Repr

/-- Splits a character list at every occurrence of `sep`, the semantics of
JavaScript `String.prototype.split` with a single-character separator. -/
def splitParts (sep : Char) : List Char → List (List Char)
  | [] => [[]]
  | c :: cs =>
    if c = sep then [] :: splitParts sep cs
    else
      match splitParts sep cs with
      | [] => [[c]]
      | p :: ps => (c :: p) :: ps

/-- JavaScript `Number(...)` on a split part: all-digit strings (the empty
string included, which `Number` takes to 0) parse to their value; anything
else is `NaN`, modelled as `none`. -/
def parseNatDigitsAux : List Char → Nat → Option Nat
  | [], acc => some acc
  | c :: cs, acc =>
    if c.isDigit then parseNatDigitsAux cs (acc * 10 + (c.toNat - 48)) else none

def parseNatDigits (cs : List Char) : Option Nat :=
  parseNatDigitsAux cs 0

/-- `preference.time.split(':').map(Number)` destructured into `[hour, minute]`.
A `NaN` in either slot makes every comparison against it false in JavaScript;
that is modelled as `none` here. -/
def parseTimeOfDay (t : String) : Option (Nat × Nat) :=
  match (splitParts ':' t.toList).map parseNatDigits with
  | some h :: some m :: _ => some (h, m)
  | _ => none

/-- `lastDigestSent.get` on the per-church marker map. -/
def lookupSent (sent : List (String × String)) (churchId : String) : Option String :=
  (sent.find? (fun p => p.1 == churchId)).map Prod.snd

/-- `lastDigestSent.set`. -/
def setSent (sent : List (String × String)) (churchId value : String) :
    List (String × String) :=
  (churchId, value) :: sent.filter (fun p => p.1 != churchId)

/-- The church loop of `ReportScheduler.tick`, exactly as written: every guard
inside the `for` loop is a `return` statement, so a church whose preference
does not match the current time — or whose digest was already sent today —
terminates the whole tick, skipping all remaining churches. Returns the ids of
churches for which a weekly digest (and its notification) fired, the ids for
which a monthly digest additionally fired, and the updated marker map. -/
def tickGo (now : TickNow) : List Church → List (String × String) →
    List String × List String × List (String × String)
  | [], sent => ([], [], sent)
  | church :: rest, sent =>
    let preference := church.digestPreference
    if now.day ≠ preference.dayOfWeek then ([], [], sent)
    else
      match parseTimeOfDay preference.time with
      | none => ([], [], sent)
      | some hm =>
        if now.hour ≠ hm.1 ∨ now.minute < hm.2 ∨ now.minute > hm.2 + 5 then ([], [], sent)
        else
          let key := church.id ++ "-" ++ now.dateStr
          if lookupSent sent church.id = some key then ([], [], sent)
          else
            let sent1 := setSent sent church.id key
            let r := tickGo now rest sent1
            (church.id :: r.1, (if now.lastDayOfMonth then church.id :: r.2.1 else r.2.1), r.2.2)

/-- `ReportScheduler.tick`: iterates over the snapshot's churches. -/
def tick (db : AppDatabase) (now : TickNow) (sent : List (String × String)) :
    List String × List String × List (String × String) :=
  tickGo now (getSnapshot db).churches sent

/-! Concrete sample data used to evaluate the model on explicit inputs. -/

def emptyDb : AppDatabase :=
  { version := 3, lastUpdated := 0, churches := [], campuses := [], users := []
    credentials := [], contacts := [], tasks := [], activities := [], plans := [], templates := [] }

def mkCampus (id churchId : String) : Campus :=
  { id := id, churchId := churchId, name := "Campus", address := none
    timezone := "America/Chicago", primary := some true }

def mkChurch (id : String) (primaryCampusId : Option String) : Church :=
  { id := id, name := "Church", brandTagline := none, planId := "plan-lite"
    digestPreference := { dayOfWeek := 1, time := "08:00" }
    emailAlerts := false, audibleAlerts := true, campuses := []
    primaryCampusId := primaryCampusId, smtp := none }

def mkContact (id churchId campusId : String) (t : Int) : Contact :=
  { id := id, churchId := churchId, campusId := campusId, displayName := "Contact"
    temperature := ContactTemperature.new, email := none, phone := none, tags := []
    preferredContactMethod := "phone", ownerId := none, backgroundNotes := none
    photoPath := none, createdAt := t, updatedAt := t, lastActivityAt := some t }

def mkTask (id churchId contactId : String) (status : TaskStatus) (dueDate : Int) :
    FollowUpTask :=
  { id := id, churchId := churchId, contactId := contactId, assigneeId := "u1"
    category := "call", status := status, dueDate := dueDate, windowStart := none
    windowEnd := none, notes := none, recurrence := "one-time", templateId := none
    createdAt := 0, updatedAt := 0, completedAt := none, rescheduledFor := none
    outcomeNote := none }

def mkActivity (id churchId contactId : String) (t : Int) : ActivityLog :=
  { id := id, churchId := churchId, contactId := contactId, userId := "u1"
    type := ActivityType.note, note := "n", taskId := none, createdAt := t }

def c1task : FollowUpTask := mkTask "t1" "ch1" "c1" TaskStatus.inProgress 50

def c1db : AppDatabase := { emptyDb with tasks := [c1task] }

def c1update : TaskStatusUpdateInput :=
  { taskId := "t1", status := TaskStatus.pending, userId := "u1", note := none
    rescheduledFor := none }

def c2task : FollowUpTask := mkTask "t2" "ch1" "c1" TaskStatus.pending 1000

def c2db : AppDatabase := { emptyDb with tasks := [c2task] }

def c2complete : TaskStatusUpdateInput :=
  { taskId := "t2", status := TaskStatus.completed, userId := "u1", note := none
    rescheduledFor := none }

def c2revert : TaskStatusUpdateInput :=
  { taskId := "t2", status := TaskStatus.inProgress, userId := "u1", note := none
    rescheduledFor := none }

def c2doneTask : FollowUpTask := mkTask "t3" "ch1" "c1" TaskStatus.completed 10

def c2db2 : AppDatabase := { emptyDb with tasks := [c2doneTask] }

def c3t1 : FollowUpTask := mkTask "s1" "ch1" "c1" TaskStatus.pending 10

def c3t2 : FollowUpTask := mkTask "s2" "ch1" "c1" TaskStatus.inProgress 20

def c3t3 : FollowUpTask := mkTask "s3" "ch1" "c1" TaskStatus.completed 10

def c3t4 : FollowUpTask := mkTask "s4" "ch1" "c1" TaskStatus.pending 999

def c3db : AppDatabase := { emptyDb with tasks := [c3t1, c3t2, c3t3, c3t4] }

def c4campus : Campus := mkCampus "camp1" "ch1"

def c4church : Church := { mkChurch "ch1" (some "camp1") with campuses := [c4campus] }

def c4contactOld : Contact := mkContact "c1" "ch1" "camp1" 0

def c4db : AppDatabase :=
  { emptyDb with churches := [c4church], campuses := [c4campus], contacts := [c4contactOld] }

def c4newContact : Contact := mkContact "c2" "ch1" "camp1" 5

def c4newTask : FollowUpTask := mkTask "t4" "ch1" "c2" TaskStatus.pending 500

def c4bundle : SyncBundle :=
  { church := c4church, campuses := [c4campus], contacts := [c4contactOld, c4newContact]
    tasks := [c4newTask], activities := [], templates := [], generatedAt := 1 }

def c4res1 : SyncImportResult := { importedContacts := 1, importedTasks := 1, path := "p1" }

def c4db1 : AppDatabase :=
  { c4db with contacts := [c4contactOld, c4newContact], tasks := [c4newTask], lastUpdated := 10 }

def c4res2 : SyncImportResult := { importedContacts := 0, importedTasks := 0, path := "p2" }

def c4db2 : AppDatabase := { c4db1 with lastUpdated := 20 }

def c5campus : Campus := mkCampus "camp5" "ch5"

def c5church : Church := { mkChurch "ch5" (some "camp5") with campuses := [c5campus] }

def c5db : AppDatabase := { emptyDb with churches := [c5church], campuses := [c5campus] }

def c5input : ContactInput :=
  { churchId := "ch5", campusId := none, displayName := "Dana", temperature := none
    email := none, phone := none, ownerId := none, preferredContactMethod := none
    backgroundNotes := none, tags := none }

def c6campus : Campus := mkCampus "camp6" "ch6"

def c6church : Church := { mkChurch "ch6" (some "camp6") with campuses := [c6campus] }

def c6contact : Contact := mkContact "c1" "ch6" "camp6" 5

def c6activity : ActivityLog := mkActivity "a0" "ch6" "c1" 5

def c6db : AppDatabase :=
  { emptyDb with
      churches := [c6church], campuses := [c6campus]
      contacts := [c6contact], activities := [c6activity] }

def c6input : ContactInput :=
  { churchId := "ch6", campusId := none, displayName := "Dana", temperature := none
    email := none, phone := none, ownerId := none, preferredContactMethod := none
    backgroundNotes := none, tags := none }

def c6statusUpdate : ContactStatusUpdate :=
  { contactId := "c1", churchId := "ch6", temperature := ContactTemperature.warm
    ownerId := none, note := none, userId := "u1" }

def c6actInput : ActivityInput :=
  { churchId := "ch6", contactId := "c1", userId := "u1", type := ActivityType.note
    note := "n", taskId := none }

def c8churchA : Church :=
  { mkChurch "A" none with digestPreference := { dayOfWeek := 2, time := "08:00" } }

def c8churchB : Church :=
  { mkChurch "B" none with digestPreference := { dayOfWeek := 1, time := "08:00" } }

def c8db : AppDatabase := { emptyDb with churches := [c8churchA, c8churchB] }

def c8dbB : AppDatabase := { emptyDb with churches := [c8churchB] }

def c8now : TickNow :=
  { day := 1, hour := 8, minute := 2, dateStr := "2026-01-05", lastDayOfMonth := false }

def c8now2 : TickNow := { c8now with minute := 4 }

def c10smtp : SmtpSettings :=
  { host := "smtp.example.org", port := 587, secure := false, user := some "mailer"
    password := some "hunter2", fromName := "Ember Alerts", fromEmail := "alerts@ember.local" }

def c10church : Church := { mkChurch "ch10" none with smtp := some c10smtp }

def c10db : AppDatabase := { emptyDb with churches := [c10church] }

/-! Helper lemmas about the list operations underlying the store. -/

theorem updateFirst_find? {α : Type} (p : α → Bool) (f : α → α) (l : List α) (x : α)
    (hx : l.find? p = some x) (hf : p (f x) = true) :
    (updateFirst p f l).find? p = some (f x) := by
  induction l with
  | nil => simp [List.find?] at hx
  | cons a as ih =>
    by_cases ha : p a = true
    · rw [List.find?_cons_of_pos _ ha] at hx
      injection hx with hx
      subst hx
      simp [updateFirst, ha, List.find?_cons_of_pos _ hf]
    · rw [List.find?_cons_of_neg _ ha] at hx
      simp only [updateFirst, ha, if_false, Bool.false_eq_true]
      rw [List.find?_cons_of_neg _ ha]
      exact ih hx

theorem sweepGo_fst (now : Int) (l : List FollowUpTask) :
    (sweepGo now l).1 = l.map (sweepTask now) := by
  induction l with
  | nil => rfl
  | cons t ts ih =>
    simp only [sweepGo, List.map_cons]
    split_ifs with h1 h2
    · simp [sweepTask, h1, ih]
    · simp [sweepTask, h1, h2, ih]
    · simp [sweepTask, h1, h2, ih]

theorem sweepTask_overdue (now : Int) (t : FollowUpTask) (hd : t.dueDate < now)
    (hs : t.status = TaskStatus.pending ∨ t.status = TaskStatus.inProgress) :
    sweepTask now t = { t with status := TaskStatus.pastDue } := by
  have h1 : t.status ≠ TaskStatus.completed := by rcases hs with h | h <;> simp [h]
  have h2 : t.status ≠ TaskStatus.pastDue := by rcases hs with h | h <;> simp [h]
  simp [sweepTask, h1, h2, hd]

theorem sweepGo_mem_changed (now : Int) (l : List FollowUpTask) (t : FollowUpTask)
    (ht : t ∈ l) (hd : t.dueDate < now)
    (hs : t.status = TaskStatus.pending ∨ t.status = TaskStatus.inProgress) :
    { t with status := TaskStatus.pastDue } ∈ (sweepGo now l).2 := by
  induction l with
  | nil => simp at ht
  | cons a as ih =>
    rcases List.mem_cons.mp ht with rfl | hmem
    · have h1 : t.status ≠ TaskStatus.completed := by rcases hs with h | h <;> simp [h]
      have h2 : t.status ≠ TaskStatus.pastDue := by rcases hs with h | h <;> simp [h]
      simp [sweepGo, h1, h2, hd]
    · have ihm := ih hmem
      simp only [sweepGo]
      split_ifs with ha1 ha2 <;> simp [ihm]

theorem sweepGo_snd_zip (now : Int) (l : List FollowUpTask) :
    (sweepGo now l).2 =
      (((sweepGo now l).1.zip l).filter (fun q => q.1.status != q.2.status)).map Prod.fst := by
  induction l with
  | nil => rfl
  | cons t ts ih =>
    simp only [sweepGo]
    split_ifs with h1 h2
    · simp [List.zip_cons_cons, ih]
    · have hne : (TaskStatus.pastDue != t.status) = true := by
        simp [bne_iff_ne]
        exact Ne.symm h2.2
      simp [List.zip_cons_cons, ih, hne]
    · simp [List.zip_cons_cons, ih]

theorem sweepGo_changed_status (now : Int) (l : List FollowUpTask) :
    ∀ c ∈ (sweepGo now l).2, c.status = TaskStatus.pastDue := by
  induction l with
  | nil => simp [sweepGo]
  | cons t ts ih =>
    simp only [sweepGo]
    split_ifs with h1 h2
    · exact ih
    · intro c hc
      rcases List.mem_cons.mp hc with rfl | hmem
      · rfl
      · exact ih c hmem
    · exact ih

theorem sweepGo_map_self (now : Int) (l : List FollowUpTask) :
    sweepGo now (l.map (sweepTask now)) = (l.map (sweepTask now), []) := by
  induction l with
  | nil => rfl
  | cons t ts ih =>
    simp only [List.map_cons]
    by_cases h1 : t.status = TaskStatus.completed
    · have hst : sweepTask now t = t := by simp [sweepTask, h1]
      rw [hst]
      simp [sweepGo, h1, ih]
    · by_cases h2 : t.dueDate < now ∧ t.status ≠ TaskStatus.pastDue
      · have hst : sweepTask now t = { t with status := TaskStatus.pastDue } := by
          simp [sweepTask, h1, h2]
        rw [hst]
        simp [sweepGo, ih]
      · have hst : sweepTask now t = t := by simp [sweepTask, h1, h2]
        rw [hst]
        simp [sweepGo, h1, h2, ih]

theorem setPastDueStatuses_tasks (db : AppDatabase) (now : Int) :
    (setPastDueStatuses db now).2.1.tasks = (sweepGo now db.tasks).1 := by
  simp only [setPastDueStatuses]
  split_ifs <;> simp [persist]

theorem setPastDueStatuses_changed (db : AppDatabase) (now : Int) :
    (setPastDueStatuses db now).1 = (sweepGo now db.tasks).2 := by
  simp only [setPastDueStatuses]
  split_ifs <;> rfl

theorem setPastDueStatuses_of_swept (db : AppDatabase) (now : Int)
    (h : sweepGo now db.tasks = (db.tasks, [])) :
    setPastDueStatuses db now = ([], db, false) := by
  simp [setPastDueStatuses, h]

theorem mergeById_spec {α : Type} (getId : α → String) (src : List α) :
    ∀ dest : List α, ∃ extra : List α,
      mergeById getId dest src = (dest ++ extra, extra.length) ∧
      ∀ y ∈ extra, ∀ e ∈ dest, getId e ≠ getId y := by
  induction src with
  | nil =>
    intro dest
    exact ⟨[], by simp [mergeById], by simp⟩
  | cons x xs ih =>
    intro dest
    by_cases hx : dest.any (fun e => getId e == getId x) = true
    · obtain ⟨extra, heq, hfresh⟩ := ih dest
      exact ⟨extra, by simp [mergeById, hx, heq], hfresh⟩
    · obtain ⟨extra, heq, hfresh⟩ := ih (dest ++ [x])
      have h1 : (mergeById getId (dest ++ [x]) xs).1 = (dest ++ [x]) ++ extra := by rw [heq]
      have h2 : (mergeById getId (dest ++ [x]) xs).2 = extra.length := by rw [heq]
      refine ⟨x :: extra, ?_, ?_⟩
      · simp [mergeById, hx, h1, h2, List.append_assoc]
      · intro y hy e he
        rcases List.mem_cons.mp hy with rfl | hy2
        · intro hcon
          apply hx
          exact List.any_eq_true.mpr ⟨e, he, by simp [hcon]⟩
        · exact hfresh y hy2 e (List.mem_append_left _ he)

theorem mergeById_covers {α : Type} (getId : α → String) (src : List α) :
    ∀ dest : List α, ∀ x ∈ src, ∃ e ∈ (mergeById getId dest src).1, getId e = getId x := by
  induction src with
  | nil =>
    intro dest x hx
    simp at hx
  | cons a as ih =>
    intro dest x hx
    rcases List.mem_cons.mp hx with rfl | hmem
    · by_cases ha : dest.any (fun e => getId e == getId x) = true
      · obtain ⟨e, he, hid⟩ := List.any_eq_true.mp ha
        obtain ⟨extra, heq, _⟩ := mergeById_spec getId as dest
        refine ⟨e, ?_, by simpa using hid⟩
        simp [mergeById, ha, heq]
        exact Or.inl he
      · obtain ⟨extra, heq, _⟩ := mergeById_spec getId as (dest ++ [x])
        refine ⟨x, ?_, rfl⟩
        have h1 : (mergeById getId (dest ++ [x]) as).1 = (dest ++ [x]) ++ extra := by rw [heq]
        simp [mergeById, ha, h1]
    · by_cases ha : dest.any (fun e => getId e == getId a) = true
      · have := ih dest x hmem
        simpa [mergeById, ha] using this
      · have := ih (dest ++ [a]) x hmem
        simpa [mergeById, ha] using this

theorem mergeById_nochange {α : Type} (getId : α → String) (src : List α) :
    ∀ dest : List α, (∀ x ∈ src, ∃ e ∈ dest, getId e = getId x) →
      mergeById getId dest src = (dest, 0) := by
  induction src with
  | nil =>
    intro dest _
    rfl
  | cons a as ih =>
    intro dest h
    have ha : dest.any (fun e => getId e == getId a) = true := by
      obtain ⟨e, he, hid⟩ := h a (List.mem_cons_self a as)
      exact List.any_eq_true.mpr ⟨e, he, by simp [hid]⟩
    simp only [mergeById, ha, if_true]
    exact ih dest (fun x hx => h x (List.mem_cons_of_mem a hx))

theorem writtenTask_id (u : TaskStatusUpdateInput) (task : FollowUpTask) (now : Int) :
    (writtenTask u task now).id = task.id := by
  simp only [writtenTask]
  split_ifs <;> rfl

theorem writtenTask_status (u : TaskStatusUpdateInput) (task : FollowUpTask) (now : Int) :
    (writtenTask u task now).status = normalizeTaskStatus u.status task.dueDate now := by
  simp only [writtenTask]
  split_ifs <;> rfl

theorem writtenTask_completedAt (u : TaskStatusUpdateInput) (task : FollowUpTask) (now : Int)
    (hc : u.status = TaskStatus.completed) :
    (writtenTask u task now).completedAt = some now := by
  simp only [writtenTask]
  rw [if_pos hc]

theorem updateTaskStatus_find (db : AppDatabase) (u : TaskStatusUpdateInput) (now : Int)
    (actId : String) (actNow persistNow : Int) (task : FollowUpTask)
    (hfind : db.tasks.find? (fun t => t.id == u.taskId) = some task) :
    (updateTaskStatus db u now actId actNow persistNow).1 = some (writtenTask u task now) ∧
    (updateTaskStatus db u now actId actNow persistNow).2.tasks.find?
      (fun t => t.id == u.taskId) = some (writtenTask u task now) := by
  have hp : ((fun t => t.id == u.taskId) (writtenTask u task now)) = true := by
    have h0 := List.find?_some hfind
    simpa [writtenTask_id] using h0
  have key := updateFirst_find? (fun t => t.id == u.taskId)
    (fun _ => writtenTask u task now) db.tasks task hfind hp
  constructor
  · simp only [updateTaskStatus]
    rw [hfind]
    exact key
  · simp only [updateTaskStatus]
    rw [hfind]
    exact key

/-! Claim theorems. -/

/-- C1: for every task, calling `updateTaskStatus` with status `pending` when
the task's `dueDate` is already in the past stores status `past-due`, never
`pending`; when the due date is not past, the requested status is stored
unchanged. Both the returned task and the task stored in the database are
covered. -/
theorem updateTaskStatus_pending_normalization
    (db : AppDatabase) (u : TaskStatusUpdateInput) (now : Int) (actId : String)
    (actNow persistNow : Int) (task : FollowUpTask)
    (hfind : db.tasks.find? (fun t => t.id == u.taskId) = some task) :
    (u.status = TaskStatus.pending → task.dueDate < now →
      (updateTaskStatus db u now actId actNow persistNow).1.map FollowUpTask.status =
        some TaskStatus.pastDue ∧
      ((updateTaskStatus db u now actId actNow persistNow).2.tasks.find?
        (fun t => t.id == u.taskId)).map FollowUpTask.status = some TaskStatus.pastDue) ∧
    (¬ task.dueDate < now →
      (updateTaskStatus db u now actId actNow persistNow).1.map FollowUpTask.status =
        some u.status ∧
      ((updateTaskStatus db u now actId actNow persistNow).2.tasks.find?
        (fun t => t.id == u.taskId)).map FollowUpTask.status = some u.status) := by
  obtain ⟨h1, h2⟩ := updateTaskStatus_find db u now actId actNow persistNow task hfind
  constructor
  · intro hpend hdue
    constructor
    · rw [h1, Option.map_some', writtenTask_status]
      simp [normalizeTaskStatus, hpend, hdue]
    · rw [h2, Option.map_some', writtenTask_status]
      simp [normalizeTaskStatus, hpend, hdue]
  · intro hnot
    constructor
    · rw [h1, Option.map_some', writtenTask_status]
      simp [normalizeTaskStatus, hnot]
    · rw [h2, Option.map_some', writtenTask_status]
      simp [normalizeTaskStatus, hnot]

/-- Witness for C1: an in-progress task due at time 50, updated to `pending`
at time 100, is stored as `past-due`. -/
theorem updateTaskStatus_pending_normalization_witness :
    (updateTaskStatus c1db c1update 100 "a1" 101 102).1.map FollowUpTask.status =
      some TaskStatus.pastDue :=
  ((updateTaskStatus_pending_normalization c1db c1update 100 "a1" 101 102 c1task
    (by decide)).1 rfl (by decide)).1

/-- C2, counterexample: the code has no terminality guard on `completed`.
A pending task (due at 1000) is completed at time 100; a second explicit
`updateTaskStatus` call with status `in-progress` at time 200 moves the stored
status away from `completed`, refuting "no subsequent operation ever changes
that task's status away from completed". -/
theorem completed_reverted_counterexample :
    (updateTaskStatus c2db c2complete 100 "a1" 101 102).1.map FollowUpTask.status =
      some TaskStatus.completed ∧
    (updateTaskStatus (updateTaskStatus c2db c2complete 100 "a1" 101 102).2
        c2revert 200 "a2" 201 202).1.map FollowUpTask.status =
      some TaskStatus.inProgress ∧
    some TaskStatus.inProgress ≠ some TaskStatus.completed := by
  refine ⟨by decide, by decide, by decide⟩

/-- C2, amended: after `updateTaskStatus` with status `completed`, the task's
`completedAt` is set (to the update timestamp) and the stored status is
`completed`; the past-due sweep never changes a completed task's status (the
task survives the sweep unchanged and is never in the changed set). A further
explicit `updateTaskStatus` call is not guarded and can still overwrite the
status, as the counterexample shows. -/
theorem completed_stamps_and_sweep_preserves
    (db : AppDatabase) (u : TaskStatusUpdateInput) (now : Int) (actId : String)
    (actNow persistNow : Int) (task : FollowUpTask)
    (hfind : db.tasks.find? (fun t => t.id == u.taskId) = some task)
    (hc : u.status = TaskStatus.completed)
    (db2 : AppDatabase) (now2 : Int) (t : FollowUpTask) (ht : t ∈ db2.tasks)
    (hts : t.status = TaskStatus.completed) :
    (updateTaskStatus db u now actId actNow persistNow).1.map FollowUpTask.completedAt =
      some (some now) ∧
    (updateTaskStatus db u now actId actNow persistNow).1.map FollowUpTask.status =
      some TaskStatus.completed ∧
    t ∈ (setPastDueStatuses db2 now2).2.1.tasks ∧
    t ∉ (setPastDueStatuses db2 now2).1 := by
  obtain ⟨h1, _⟩ := updateTaskStatus_find db u now actId actNow persistNow task hfind
  refine ⟨?_, ?_, ?_, ?_⟩
  · rw [h1, Option.map_some', writtenTask_completedAt u task now hc]
  · rw [h1, Option.map_some', writtenTask_status]
    simp [normalizeTaskStatus, hc]
  · rw [setPastDueStatuses_tasks, sweepGo_fst]
    have hself : sweepTask now2 t = t := by simp [sweepTask, hts]
    exact List.mem_map.mpr ⟨t, ht, hself⟩
  · rw [setPastDueStatuses_changed]
    intro hmem
    have := sweepGo_changed_status now2 db2.tasks t hmem
    rw [hts] at this
    exact absurd this (by decide)

/-- Witness for C2 (amended): completing the pending task `t2` stamps
`completedAt = 100`, and the already-completed task `t3` survives a sweep at
time 500 untouched. -/
theorem completed_stamps_and_sweep_preserves_witness :
    ((updateTaskStatus c2db c2complete 100 "a1" 101 102).1.map FollowUpTask.completedAt =
      some (some 100)) ∧
    c2doneTask ∈ (setPastDueStatuses c2db2 500).2.1.tasks :=
  ⟨(completed_stamps_and_sweep_preserves c2db c2complete 100 "a1" 101 102 c2task
      (by decide) rfl c2db2 500 c2doneTask (by decide) rfl).1,
   (completed_stamps_and_sweep_preserves c2db c2complete 100 "a1" 101 102 c2task
      (by decide) rfl c2db2 500 c2doneTask (by decide) rfl).2.2.1⟩

/-- C3: every task with a past `dueDate` and status `pending` or `in-progress`
is set to `past-due` by one sweep run, and appears in the returned changed set;
the changed set is exactly the post-state of the tasks whose status the run
changed; and re-running the sweep on the resulting state with no intervening
change returns an empty set, leaves the database untouched and performs no
persisted write (the `false` flag). -/
theorem setPastDueStatuses_sweep (db : AppDatabase) (now : Int) :
    (∀ t ∈ db.tasks, t.dueDate < now →
      (t.status = TaskStatus.pending ∨ t.status = TaskStatus.inProgress) →
      { t with status := TaskStatus.pastDue } ∈ (setPastDueStatuses db now).2.1.tasks ∧
      { t with status := TaskStatus.pastDue } ∈ (setPastDueStatuses db now).1) ∧
    ((setPastDueStatuses db now).1 =
      (((setPastDueStatuses db now).2.1.tasks.zip db.tasks).filter
        (fun q => q.1.status != q.2.status)).map Prod.fst) ∧
    (setPastDueStatuses (setPastDueStatuses db now).2.1 now =
      ([], (setPastDueStatuses db now).2.1, false)) := by
  refine ⟨?_, ?_, ?_⟩
  · intro t ht hd hs
    constructor
    · rw [setPastDueStatuses_tasks, sweepGo_fst]
      exact List.mem_map.mpr ⟨t, ht, sweepTask_overdue now t hd hs⟩
    · rw [setPastDueStatuses_changed]
      exact sweepGo_mem_changed now db.tasks t ht hd hs
  · rw [setPastDueStatuses_changed, setPastDueStatuses_tasks]
    exact sweepGo_snd_zip now db.tasks
  · apply setPastDueStatuses_of_swept
    rw [setPastDueStatuses_tasks, sweepGo_fst]
    exact sweepGo_map_self now db.tasks

/-- Witness for C3: the pending task due at 10 is flipped to `past-due` and
returned by a sweep at time 50. -/
theorem setPastDueStatuses_sweep_witness :
    { c3t1 with status := TaskStatus.pastDue } ∈ (setPastDueStatuses c3db 50).2.1.tasks ∧
    { c3t1 with status := TaskStatus.pastDue } ∈ (setPastDueStatuses c3db 50).1 :=
  (setPastDueStatuses_sweep c3db 50).1 c3t1 (by decide) (by decide) (Or.inl rfl)

/-- C4: `importSyncBundle` admits a bundle record of each merged entity kind
only if no existing record with the same id is present (the first import only
appends records whose ids are fresh, leaving every existing record in place,
and the returned counts are the numbers of appended contacts and tasks);
consequently a second import of the same bundle into the same church returns
zero imported contacts and tasks and leaves every entity collection unchanged. -/
theorem importSyncBundle_idempotent
    (db : AppDatabase) (churchId : String) (b : SyncBundle) (p1 p2 : String) (t1 t2 : Int)
    (res1 : SyncImportResult) (db1 : AppDatabase)
    (h1 : importSyncBundle db churchId b p1 t1 = Except.ok (res1, db1))
    (res2 : SyncImportResult) (db2 : AppDatabase)
    (h2 : importSyncBundle db1 churchId b p2 t2 = Except.ok (res2, db2)) :
    (∃ extra, db1.contacts = db.contacts ++ extra ∧ res1.importedContacts = extra.length ∧
      ∀ y ∈ extra, ∀ e ∈ db.contacts, e.id ≠ y.id) ∧
    (∃ extra, db1.tasks = db.tasks ++ extra ∧ res1.importedTasks = extra.length ∧
      ∀ y ∈ extra, ∀ e ∈ db.tasks, e.id ≠ y.id) ∧
    (∃ extra, db1.campuses = db.campuses ++ extra ∧
      ∀ y ∈ extra, ∀ e ∈ db.campuses, e.id ≠ y.id) ∧
    (∃ extra, db1.templates = db.templates ++ extra ∧
      ∀ y ∈ extra, ∀ e ∈ db.templates, e.id ≠ y.id) ∧
    db1.activities = db.activities ∧
    res2.importedContacts = 0 ∧ res2.importedTasks = 0 ∧
    db2.contacts = db1.contacts ∧ db2.tasks = db1.tasks ∧ db2.campuses = db1.campuses ∧
    db2.templates = db1.templates ∧ db2.activities = db1.activities ∧
    db2.churches = db1.churches ∧ db2.users = db1.users ∧
    db2.credentials = db1.credentials ∧ db2.plans = db1.plans := by
  cases hfind : db.churches.find? (fun c => c.id == churchId) with
  | none => simp [importSyncBundle, hfind] at h1
  | some church =>
    simp only [importSyncBundle, hfind] at h1
    rw [Except.ok.injEq, Prod.mk.injEq] at h1
    obtain ⟨hres1, hdb1⟩ := h1
    obtain ⟨exC, heqC, hfreshC⟩ := mergeById_spec Contact.id b.contacts db.contacts
    obtain ⟨exT, heqT, hfreshT⟩ := mergeById_spec FollowUpTask.id b.tasks db.tasks
    obtain ⟨exCa, heqCa, hfreshCa⟩ := mergeById_spec Campus.id b.campuses db.campuses
    obtain ⟨exTe, heqTe, hfreshTe⟩ := mergeById_spec AssignmentTemplate.id b.templates db.templates
    have hdb1contacts : db1.contacts = (mergeById Contact.id db.contacts b.contacts).1 := by
      rw [← hdb1]; rfl
    have hdb1tasks : db1.tasks = (mergeById FollowUpTask.id db.tasks b.tasks).1 := by
      rw [← hdb1]; rfl
    have hdb1campuses : db1.campuses = (mergeById Campus.id db.campuses b.campuses).1 := by
      rw [← hdb1]; rfl
    have hdb1templates : db1.templates =
        (mergeById AssignmentTemplate.id db.templates b.templates).1 := by
      rw [← hdb1]; rfl
    have hdb1activities : db1.activities = db.activities := by rw [← hdb1]; rfl
    have hdb1churches : db1.churches = db.churches := by rw [← hdb1]; rfl
    have hfind1 : db1.churches.find? (fun c => c.id == churchId) = some church := by
      rw [hdb1churches]
      exact hfind
    have hcovC : ∀ x ∈ b.contacts, ∃ e ∈ db1.contacts, e.id = x.id := by
      intro x hx
      obtain ⟨e, he, hid⟩ := mergeById_covers Contact.id b.contacts db.contacts x hx
      exact ⟨e, hdb1contacts ▸ he, hid⟩
    have hcovT : ∀ x ∈ b.tasks, ∃ e ∈ db1.tasks, e.id = x.id := by
      intro x hx
      obtain ⟨e, he, hid⟩ := mergeById_covers FollowUpTask.id b.tasks db.tasks x hx
      exact ⟨e, hdb1tasks ▸ he, hid⟩
    have hcovCa : ∀ x ∈ b.campuses, ∃ e ∈ db1.campuses, e.id = x.id := by
      intro x hx
      obtain ⟨e, he, hid⟩ := mergeById_covers Campus.id b.campuses db.campuses x hx
      exact ⟨e, hdb1campuses ▸ he, hid⟩
    have hcovTe : ∀ x ∈ b.templates, ∃ e ∈ db1.templates, e.id = x.id := by
      intro x hx
      obtain ⟨e, he, hid⟩ :=
        mergeById_covers AssignmentTemplate.id b.templates db.templates x hx
      exact ⟨e, hdb1templates ▸ he, hid⟩
    have hnoC := mergeById_nochange Contact.id b.contacts db1.contacts hcovC
    have hnoT := mergeById_nochange FollowUpTask.id b.tasks db1.tasks hcovT
    have hnoCa := mergeById_nochange Campus.id b.campuses db1.campuses hcovCa
    have hnoTe := mergeById_nochange AssignmentTemplate.id b.templates db1.templates hcovTe
    simp only [importSyncBundle, hfind1, hnoC, hnoT, hnoCa, hnoTe] at h2
    rw [Except.ok.injEq, Prod.mk.injEq] at h2
    obtain ⟨hres2, hdb2⟩ := h2
    refine ⟨⟨exC, ?_, ?_, hfreshC⟩, ⟨exT, ?_, ?_, hfreshT⟩, ⟨exCa, ?_, hfreshCa⟩,
      ⟨exTe, ?_, hfreshTe⟩, hdb1activities, ?_, ?_, ?_, ?_, ?_, ?_, ?_, ?_, ?_, ?_, ?_⟩
    · rw [hdb1contacts, heqC]
    · rw [← hres1]
      simp only [heqC]
    · rw [hdb1tasks, heqT]
    · rw [← hres1]
      simp only [heqT]
    · rw [hdb1campuses, heqCa]
    · rw [hdb1templates, heqTe]
    · rw [← hres2]
    · rw [← hres2]
    · rw [← hdb2]; rfl
    · rw [← hdb2]; rfl
    · rw [← hdb2]; rfl
    · rw [← hdb2]; rfl
    · rw [← hdb2]; rfl
    · rw [← hdb2]; rfl
    · rw [← hdb2]; rfl
    · rw [← hdb2]; rfl
    · rw [← hdb2]; rfl

/-- Witness for C4: importing a bundle carrying one already-present contact,
one fresh contact and one fresh task, then importing it again: the second pass
imports nothing. -/
theorem importSyncBundle_idempotent_witness :
    c4res2.importedContacts = 0 ∧ c4res2.importedTasks = 0 ∧ c4db2.contacts = c4db1.contacts :=
  ⟨(importSyncBundle_idempotent c4db "ch1" c4bundle "p1" "p2" 10 20 c4res1 c4db1
      rfl c4res2 c4db2 rfl).2.2.2.2.2.1,
   (importSyncBundle_idempotent c4db "ch1" c4bundle "p1" "p2" 10 20 c4res1 c4db1
      rfl c4res2 c4db2 rfl).2.2.2.2.2.2.1,
   (importSyncBundle_idempotent c4db "ch1" c4bundle "p1" "p2" 10 20 c4res1 c4db1
      rfl c4res2 c4db2 rfl).2.2.2.2.2.2.2.1⟩

/-- C5: `createContact` without an explicit campus id resolves the contact's
campus to the church's primary campus id whenever that id resolves (to a
non-empty id, as the JavaScript falsy guard requires); when no campus can be
resolved — the church has no primary campus id or does not exist, so
`getPrimaryCampusId` yields `none` — the call fails with the validation error
and returns no mutated state. -/
theorem createContact_campus_resolution
    (db : AppDatabase) (p : ContactInput) (newId : String) (now : Int) (actId : String)
    (actNow persistNow : Int) (hno : p.campusId = none) :
    (∀ cid, getPrimaryCampusId db p.churchId = some cid → cid ≠ "" →
      (createContact db p newId now actId actNow persistNow).toOption.map
        (fun r => r.1.campusId) = some cid) ∧
    (getPrimaryCampusId db p.churchId = none →
      createContact db p newId now actId actNow persistNow =
        Except.error "No campus configured for this church.") := by
  constructor
  · intro cid hcid hne
    simp only [createContact, hno, hcid]
    rw [if_neg hne]
    by_cases hany : db.contacts.any (fun c => c.id == newId && c.churchId == p.churchId) = true
    · simp only [hany, if_true]
      rfl
    · simp only [hany, if_false, Bool.false_eq_true]
      rfl
  · intro hprim
    simp [createContact, hno, hprim]

/-- Witness for C5: with no explicit campus, the contact lands on church
`ch5`'s primary campus `camp5`; with the empty database the same call fails
with the validation error. -/
theorem createContact_campus_resolution_witness :
    (createContact c5db c5input "n1" 10 "a1" 11 12).toOption.map
      (fun r => r.1.campusId) = some "camp5" ∧
    createContact emptyDb c5input "n1" 10 "a1" 11 12 =
      Except.error "No campus configured for this church." :=
  ⟨(createContact_campus_resolution c5db c5input "n1" 10 "a1" 11 12 rfl).1
      "camp5" rfl (by decide),
   (createContact_campus_resolution emptyDb c5input "n1" 10 "a1" 11 12 rfl).2 rfl⟩

/-- C6, counterexample: `updateContactPhoto` is a mutating Repository call
that changes a Contact — it stores a photo path (previously `none`) and stamps
`updatedAt` to the call time 100 — yet it creates no ActivityLog entry (the
activities list is unchanged) and leaves `lastActivityAt` at its old value 5,
so the claim fails for it. -/
theorem updateContactPhoto_no_activity_counterexample :
    (updateContactPhoto c6db "c1" "ch6" "pic.png" "up" 100 101).2.activities =
      c6db.activities ∧
    c6contact.photoPath = none ∧
    (updateContactPhoto c6db "c1" "ch6" "pic.png" "up" 100 101).1.map
      (fun c => c.photoPath.isSome) = some true ∧
    (updateContactPhoto c6db "c1" "ch6" "pic.png" "up" 100 101).1.map Contact.updatedAt =
      some 100 ∧
    (updateContactPhoto c6db "c1" "ch6" "pic.png" "up" 100 101).1.map Contact.lastActivityAt =
      some (some 5) ∧
    (5 : Int) ≠ 100 := by
  exact ⟨rfl, rfl, rfl, rfl, rfl, by decide⟩

/-- C6, amended: `recordActivity` itself, `createContact` and
`updateContactStatus` all set the touched Contact's `lastActivityAt` to
exactly the timestamp of the ActivityLog entry they create (which is the head
of the activities list after the call); `updateContactPhoto`, by contrast,
mutates the Contact without creating any ActivityLog entry and leaves
`lastActivityAt` unchanged. For `createContact`, the returned contact carries
the activity timestamp provided no pre-existing contact shares the fresh id. -/
theorem contact_mutations_activity_timestamps
    (dbA : AppDatabase) (a : ActivityInput) (idA : String) (tA : Int) (cA : Contact)
    (hA : findContact dbA a.contactId a.churchId = some cA)
    (dbB : AppDatabase) (p : ContactInput) (newId : String) (nowB : Int) (idB : String)
    (tB persistB : Int) (cid : String)
    (hBcampus : (match p.campusId with
      | some c => some c
      | none => getPrimaryCampusId dbB p.churchId) = some cid)
    (hBne : cid ≠ "")
    (hBfresh : dbB.contacts.any (fun c => c.id == newId && c.churchId == p.churchId) = false)
    (dbC : AppDatabase) (u : ContactStatusUpdate) (nowC : Int) (idC : String)
    (tC persistC : Int) (cC : Contact) (hC : findContact dbC u.contactId u.churchId = some cC)
    (dbD : AppDatabase) (cidD chidD srcD upD : String) (nowD persistD : Int) (cD : Contact)
    (hD : findContact dbD cidD chidD = some cD) (hsrc : srcD ≠ "") :
    ((recordActivity dbA a idA tA).1.createdAt = tA ∧
     (recordActivity dbA a idA tA).2.activities = (recordActivity dbA a idA tA).1 :: dbA.activities ∧
     findContact (recordActivity dbA a idA tA).2 a.contactId a.churchId =
       some { cA with lastActivityAt := some tA, updatedAt := tA }) ∧
    ((createContact dbB p newId nowB idB tB persistB).toOption.map
       (fun r => r.1.lastActivityAt) = some (some tB) ∧
     (createContact dbB p newId nowB idB tB persistB).toOption.map
       (fun r => r.2.activities.head?.map ActivityLog.createdAt) = some (some tB)) ∧
    ((updateContactStatus dbC u nowC idC tC persistC).1.map Contact.lastActivityAt =
       some (some tC) ∧
     (updateContactStatus dbC u nowC idC tC persistC).2.activities.head?.map
       ActivityLog.createdAt = some tC) ∧
    ((updateContactPhoto dbD cidD chidD srcD upD nowD persistD).2.activities =
       dbD.activities ∧
     (updateContactPhoto dbD cidD chidD srcD upD nowD persistD).1.map
       Contact.lastActivityAt = some cD.lastActivityAt) := by
  have hA2 : dbA.contacts.find?
      (fun target => target.id == a.contactId && target.churchId == a.churchId) = some cA := hA
  have hpA := List.find?_some hA2
  have hC2 : dbC.contacts.find?
      (fun target => target.id == u.contactId && target.churchId == u.churchId) = some cC := hC
  have hpC := List.find?_some hC2
  have hD2 : dbD.contacts.find?
      (fun target => target.id == cidD && target.churchId == chidD) = some cD := hD
  have hpD := List.find?_some hD2
  refine ⟨⟨rfl, rfl, ?_⟩, ⟨?_, ?_⟩, ⟨?_, ?_⟩, ⟨?_, ?_⟩⟩
  · exact updateFirst_find? _ _ dbA.contacts cA hA2 hpA
  · simp only [createContact, hBcampus]
    rw [if_neg hBne]
    simp only [hBfresh, if_false, Bool.false_eq_true]
    rfl
  · simp only [createContact, hBcampus]
    rw [if_neg hBne]
    simp only [hBfresh, if_false, Bool.false_eq_true]
    rfl
  · have step1 := updateFirst_find?
      (fun target => target.id == u.contactId && target.churchId == u.churchId)
      (fun _ => { cC with
          temperature := u.temperature
          ownerId := match u.ownerId with | some o => some o | none => cC.ownerId
          updatedAt := nowC
          lastActivityAt := some nowC })
      dbC.contacts cC hC2 hpC
    have step2 := updateFirst_find?
      (fun target => target.id == u.contactId && target.churchId == u.churchId)
      (fun c : Contact => { c with lastActivityAt := some tC, updatedAt := tC })
      _ _ step1 hpC
    have hval : (updateContactStatus dbC u nowC idC tC persistC).1 =
        some { cC with
            temperature := u.temperature
            ownerId := match u.ownerId with | some o => some o | none => cC.ownerId
            updatedAt := tC
            lastActivityAt := some tC } := by
      simp only [updateContactStatus, hC]
      exact step2
    rw [hval]
    rfl
  · simp only [updateContactStatus, hC]
    rfl
  · simp only [updateContactPhoto, hD]
    rw [if_neg hsrc]
    rfl
  · have step := updateFirst_find?
      (fun target => target.id == cidD && target.churchId == chidD)
      (fun x => { x with
          photoPath := some (upD ++ "/" ++ cidD ++ "." ++ (srcD.splitOn ".").getLastD "")
          updatedAt := nowD })
      dbD.contacts cD hD2 hpD
    have hval : (updateContactPhoto dbD cidD chidD srcD upD nowD persistD).1 =
        some { cD with
            photoPath := some (upD ++ "/" ++ cidD ++ "." ++ (srcD.splitOn ".").getLastD "")
            updatedAt := nowD } := by
      simp only [updateContactPhoto, hD]
      rw [if_neg hsrc]
      exact step
    rw [hval]
    rfl

/-- Witness for C6 (amended): on the sample database, `updateContactStatus`
stamps `lastActivityAt` with the activity timestamp 101, and
`updateContactPhoto` leaves `lastActivityAt` at 5. -/
theorem contact_mutations_activity_timestamps_witness :
    ((updateContactStatus c6db c6statusUpdate 100 "a9" 101 102).1.map
      Contact.lastActivityAt = some (some 101)) ∧
    ((updateContactPhoto c6db "c1" "ch6" "pic.png" "up" 100 101).1.map
      Contact.lastActivityAt = some c6contact.lastActivityAt) :=
  ⟨(contact_mutations_activity_timestamps c6db c6actInput "a5" 7 c6contact rfl
      c6db c6input "n1" 100 "a8" 101 102 "camp6" rfl (by decide) rfl
      c6db c6statusUpdate 100 "a9" 101 102 c6contact rfl
      c6db "c1" "ch6" "pic.png" "up" 100 101 c6contact rfl (by decide)).2.2.1.1,
   (contact_mutations_activity_timestamps c6db c6actInput "a5" 7 c6contact rfl
      c6db c6input "n1" 100 "a8" 101 102 "camp6" rfl (by decide) rfl
      c6db c6statusUpdate 100 "a9" 101 102 c6contact rfl
      c6db "c1" "ch6" "pic.png" "up" 100 101 c6contact rfl (by decide)).2.2.2.2⟩

/-- C7: `composeDigest.totalActivities` counts exactly the church's
ActivityLog entries whose `createdAt` lies strictly between the window bounds
(an entry exactly equal to the window start or end is excluded by the strict
inequalities), while `pastDueTasks` and `converts` are church-wide current
counts — tasks with status `past-due` and contacts with temperature `convert`
— identical for any two windows. -/
theorem composeDigest_counts (db : AppDatabase) (churchId : String)
    (s e s2 e2 : Int) (label label2 : String) :
    (composeDigest db churchId s e label).totalActivities =
      db.activities.countP (fun a =>
        decide (a.churchId = churchId ∧ s < a.createdAt ∧ a.createdAt < e)) ∧
    (composeDigest db churchId s e label).pastDueTasks =
      db.tasks.countP (fun t =>
        decide (t.churchId = churchId ∧ t.status = TaskStatus.pastDue)) ∧
    (composeDigest db churchId s e label).converts =
      db.contacts.countP (fun c =>
        decide (c.churchId = churchId ∧ c.temperature = ContactTemperature.convert)) ∧
    (composeDigest db churchId s e label).pastDueTasks =
      (composeDigest db churchId s2 e2 label2).pastDueTasks ∧
    (composeDigest db churchId s e label).converts =
      (composeDigest db churchId s2 e2 label2).converts := by
  refine ⟨?_, ?_, ?_, rfl, rfl⟩
  · simp only [composeDigest]
    rw [List.countP_eq_length_filter]
    congr 1
    apply List.filter_congr
    intro a _
    by_cases h1 : a.churchId = churchId <;> by_cases h2 : s < a.createdAt <;>
      by_cases h3 : a.createdAt < e <;> simp [h1, h2, h3]
  · simp only [composeDigest]
    rw [List.countP_eq_length_filter]
    congr 1
    apply List.filter_congr
    intro t _
    by_cases h1 : t.churchId = churchId <;> by_cases h2 : t.status = TaskStatus.pastDue <;>
      simp [h1, h2]
  · simp only [composeDigest]
    rw [List.countP_eq_length_filter]
    congr 1
    apply List.filter_congr
    intro c _
    by_cases h1 : c.churchId = churchId <;>
      by_cases h2 : c.temperature = ContactTemperature.convert <;> simp [h1, h2]

/-- C9: `getSnapshot` is insensitive to the credentials collection — two
database states differing only in `credentials` produce identical snapshots,
so no UserCredential record can leak through it — and each snapshot church's
`campuses` field is exactly the campus-table entries whose `churchId` matches
that church. -/
theorem getSnapshot_credentials_free (db : AppDatabase) (creds : List UserCredential) :
    getSnapshot { db with credentials := creds } = getSnapshot db ∧
    (getSnapshot db).churches = db.churches.map (fun church =>
      { church with
          campuses := db.campuses.filter (fun campus => campus.churchId == church.id) }) :=
  ⟨rfl, rfl⟩

/-- C10: for every existing church with an smtp configuration, the bundle
returned by `createSyncBundle` carries that smtp configuration — stored
password included — inside its `church` field: the runtime spread
`{ ...church, campuses }` does not strip `smtp`, despite the
`Omit<..., 'smtp'>` static type on the bundle's church field. -/
theorem createSyncBundle_keeps_smtp (db : AppDatabase) (churchId : String) (now : Int)
    (church : Church) (hfind : db.churches.find? (fun c => c.id == churchId) = some church)
    (s : SmtpSettings) (hs : church.smtp = some s) :
    (createSyncBundle db churchId now).map (fun b => b.church.smtp) = some (some s) := by
  simp only [createSyncBundle, hfind]
  simp [hs]

/-- Witness for C10: church `ch10` stores an smtp configuration with password
"hunter2"; its export bundle carries it. -/
theorem createSyncBundle_keeps_smtp_witness :
    (createSyncBundle c10db "ch10" 50).map (fun b => b.church.smtp) = some (some c10smtp) :=
  createSyncBundle_keeps_smtp c10db "ch10" 50 c10church rfl c10smtp rfl

/-- C8 (code bug): every guard inside the tick's church loop is a `return`
rather than a `continue`, so one church's non-matching preference aborts the
whole tick. At Monday 08:02, church A (preference day Tuesday) followed by
church B (preference Monday 08:00) fires nothing — B is skipped because of
A's preference — although B alone fires exactly one weekly digest; the
per-church last-sent marker does make a second tick at Monday 08:04 fire
nothing further for B. -/
theorem scheduler_tick_return_skips_churches :
    (tick c8db c8now []).1 = [] ∧
    (tick c8dbB c8now []).1 = ["B"] ∧
    (tick c8dbB c8now2 (tick c8dbB c8now []).2.2).1 = [] :=
  ⟨rfl, rfl, rfl⟩

end Ember